import Mathlib

/-
Verification of `run_queries.py` (present twice, byte-identical in the
function under study, under `article-006-sql-fundamentals` and
`article-007-advanced-sql`).  The single function `execute_query`
(lines 12-44) is embedded shallowly: the external world (psycopg2 and
pandas) is an environment deciding whether the connection attempt and the
query execution succeed, and the observable behaviour of one invocation is
a trace of events (connection opened / closed, each print statement) plus
the returned value (`df` on success, `None` on any caught exception).
-/

namespace RunQueries

/-- The five parameters passed to `psycopg2.connect` (lines 17-23):
host, port, database, user, password, in that order. -/
structure ConnConfig where
  host : String
  port : Nat
  database : String
  user : String
  password : String
deriving Repr, DecidableEq

/-- The configuration hard-coded at lines 17-23 of the source:
`host="localhost", port=5433, database="ecommerce_db", user="admin",
password="root"`. -/
def connConfig : ConnConfig :=
  ⟨"localhost", 5433, "ecommerce_db", "admin", "root"⟩

/-- The pandas DataFrame produced by `pd.read_sql` (line 30): an ordered
list of column names and an ordered list of rows, each row a list of cell
values (modelled as strings; their content is never inspected by the
script beyond display). -/
structure DataFrame where
  columns : List String
  rows : List (List String)
deriving Repr, DecidableEq

/-- A Python exception, reduced to the message the handler at line 43
interpolates into its output. -/
structure PyErr where
  msg : String
deriving Repr, DecidableEq

/-- One observable step of an invocation:
`connOpen` - `psycopg2.connect` returned a live connection (line 17);
`connClose` - `conn.close()` ran (line 39);
`printHeader` - the section header block printed the description
(lines 25-27); `printTable` - `tabulate(df.head(20), ...)` printed the
shown rows under the column headers (line 34); `printRowCount` - the
"Returned n rows" line (line 35); `printNoResults` - the
"No results returned" notice (line 37); `printError` - the
"Error: e" line of the handler (line 43). -/
inductive Event where
  | connOpen (cfg : ConnConfig)
  | connClose
  | printHeader (description : String)
  | printTable (shown : List (List String)) (headers : List String)
  | printRowCount (n : Nat)
  | printNoResults
  | printError (msg : String)
deriving Repr, DecidableEq

/-- The external world of one invocation: what `psycopg2.connect` does
when handed a configuration, and what `pd.read_sql` does when handed a
query text.  `Except.error e` models the call raising exception `e`. -/
structure Env where
  connectResult : ConnConfig → Except PyErr Unit
  readSql : String → Except PyErr DataFrame

/-- Lines 33-37 of the source: if the DataFrame is non-empty, print
`df.head(max_rows)` as a table and then the true row count `len(df)`;
otherwise print the no-results notice.  The source fixes `max_rows` to 20
via `df.head(20)`; the parameter is the spec's `render` display cap. -/
def render (df : DataFrame) (max_rows : Nat) : List Event :=
  if df.rows.length > 0 then
    [Event.printTable (df.rows.take max_rows) df.columns,
     Event.printRowCount df.rows.length]
  else
    [Event.printNoResults]

/-- The body of the `try` block (lines 15-40): connect with the hard-coded
`connConfig`, print the header, run the query, render the result, close
the connection, and return `df`.  A raise at any step aborts the rest of
the block; the events already emitted before the raise are kept in the
trace, and the exception is surfaced as `Except.error` for the handler. -/
def tryBody (env : Env) (query : String) (description : String) :
    List Event × Except PyErr DataFrame :=
  match env.connectResult connConfig with
  | Except.error e => ([], Except.error e)
  | Except.ok _ =>
      match env.readSql query with
      | Except.error e =>
          ([Event.connOpen connConfig, Event.printHeader description],
           Except.error e)
      | Except.ok df =>
          ([Event.connOpen connConfig, Event.printHeader description]
             ++ render df 20 ++ [Event.connClose],
           Except.ok df)

/-- Lines 12-44 of the source: run the `try` body; the
`except Exception as e` handler (lines 42-44) catches any raise, prints
the error line, and returns `None` (modelled as `none`; a normal return
of `df` is `some df`). -/
def execute_query (env : Env) (query : String) (description : String) :
    List Event × Option DataFrame :=
  match tryBody env query description with
  | (evs, Except.ok df) => (evs, some df)
  | (evs, Except.error e) => (evs ++ [Event.printError e.msg], none)

/-- Whether an event is a successful connection acquisition. -/
def isConnOpen : Event → Bool
  | Event.connOpen _ => true
  | _ => false

/-- Whether an event is a connection release. -/
def isConnClose : Event → Bool
  | Event.connClose => true
  | _ => false

/-- Whether an event is the handler's error line. -/
def isErrorLine : Event → Bool
  | Event.printError _ => true
  | _ => false

/-- Number of connections opened during a trace. -/
def countOpens (evs : List Event) : Nat := (evs.filter isConnOpen).length

/-- Number of connections closed during a trace. -/
def countCloses (evs : List Event) : Nat := (evs.filter isConnClose).length

/-- Number of error lines printed during a trace. -/
def countErrorLines (evs : List Event) : Nat :=
  (evs.filter isErrorLine).length

/-- Whether a trace printed a results table. -/
def hasTable (evs : List Event) : Bool :=
  evs.any fun e =>
    match e with
    | Event.printTable _ _ => true
    | _ => false

/-- Whether a trace printed the row-count line. -/
def hasRowCount (evs : List Event) : Bool :=
  evs.any fun e =>
    match e with
    | Event.printRowCount _ => true
    | _ => false

/-- Whether a trace printed the no-results notice. -/
def hasNoResults (evs : List Event) : Bool :=
  evs.any fun e =>
    match e with
    | Event.printNoResults => true
    | _ => false

/-- Whether a trace printed the section header. -/
def hasHeader (evs : List Event) : Bool :=
  evs.any fun e =>
    match e with
    | Event.printHeader _ => true
    | _ => false

/-- Every connection opened in a trace used the given configuration. -/
def opensOnly (cfg : ConnConfig) (evs : List Event) : Bool :=
  evs.all fun e =>
    match e with
    | Event.connOpen c => c == cfg
    | _ => true

/-- An environment whose connection attempt raises with message `m`. -/
def envConnFail (m : String) : Env :=
  ⟨fun _ => Except.error ⟨m⟩, fun _ => Except.error ⟨m⟩⟩

/-- An environment that connects but whose query execution raises with
message `m`. -/
def envQueryFail (m : String) : Env :=
  ⟨fun _ => Except.ok (), fun _ => Except.error ⟨m⟩⟩

/-- An environment that connects and whose query returns `df`. -/
def envOk (df : DataFrame) : Env :=
  ⟨fun _ => Except.ok (), fun _ => Except.ok df⟩

/-- A successful query result with zero rows. -/
def emptyDF : DataFrame := ⟨["month", "revenue"], []⟩

/-- A successful query result with 21 rows, one more than the display
cap. -/
def df21 : DataFrame := ⟨["month", "revenue"], List.replicate 21 ["v", "1"]⟩

/-- Claim C1, evaluated at the failing input: when the connection opens
but `pd.read_sql` raises (for example on a malformed statement), the
handler returns without ever reaching `conn.close()` at line 39, since
that call sits inside the `try` block after the raise point.  One
connection is opened and zero are closed, so the open-count equals
close-count invariant claimed by the spec fails on the query-error path. -/
theorem execute_query_query_error_leaks_connection :
    countOpens (execute_query (envQueryFail "syntax error") "SELEC 1" "Query").1 = 1 ∧
    countCloses (execute_query (envQueryFail "syntax error") "SELEC 1" "Query").1 = 0 :=
  ⟨rfl, rfl⟩

/-- Claim C2: `execute_query` never lets an exception propagate past its
own boundary.  Whenever the `try` body raises `e` at any step, the
invocation still returns: the returned value is `None`, and the trace is
the body's trace followed by exactly the handler's error line carrying
the message of `e`. -/
theorem execute_query_never_raises (env : Env) (query description : String)
    (e : PyErr) (h : (tryBody env query description).2 = Except.error e) :
    (execute_query env query description).2 = none ∧
    (execute_query env query description).1 =
      (tryBody env query description).1 ++ [Event.printError e.msg] := by
  rcases htb : tryBody env query description with ⟨evs, r⟩
  rw [htb] at h
  simp at h
  subst h
  simp [execute_query, htb]

/-- Witness for C2 at a concrete failing environment. -/
theorem execute_query_never_raises_witness :
    (tryBody (envQueryFail "boom") "q" "d").2 = Except.error ⟨"boom"⟩ ∧
    ((execute_query (envQueryFail "boom") "q" "d").2 = none ∧
     (execute_query (envQueryFail "boom") "q" "d").1 =
       (tryBody (envQueryFail "boom") "q" "d").1 ++ [Event.printError "boom"]) :=
  ⟨rfl, execute_query_never_raises (envQueryFail "boom") "q" "d" ⟨"boom"⟩ rfl⟩

/-- Claim C3, counterexample: a connection failure and a query failure
carrying the same exception message yield the same returned outcome,
`none`, in both cases — the caller cannot tell the two failure kinds
apart from the value the function returns, so the two kinds are not
distinct in the outcome the caller observes. -/
theorem failure_kinds_share_returned_outcome :
    (execute_query (envConnFail "boom") "q" "d").2 = none ∧
    (execute_query (envQueryFail "boom") "q" "d").2 = none ∧
    (execute_query (envConnFail "boom") "q" "d").2 =
      (execute_query (envQueryFail "boom") "q" "d").2 :=
  ⟨rfl, rfl, rfl⟩

/-- Claim C3 as amended: the single generic handler at lines 42-44 treats
connection failures and query failures identically — for any exception
message, both kinds return `None` (the same value) and print exactly one
error line; no `ConnectionError` / `QueryError` taxonomy is observable
in the returned outcome. -/
theorem generic_handler_uniform_failure (m q d : String) :
    (execute_query (envConnFail m) q d).2 = (execute_query (envQueryFail m) q d).2 ∧
    (execute_query (envConnFail m) q d).2 = none ∧
    countErrorLines (execute_query (envConnFail m) q d).1 = 1 ∧
    countErrorLines (execute_query (envQueryFail m) q d).1 = 1 :=
  ⟨rfl, rfl, rfl, rfl⟩

/-- Claim C10: if opening the connection fails, the invocation emits the
error line and nothing else — in particular the section header of
lines 25-27, which sits after `psycopg2.connect` in program order, is
never printed without a live connection. -/
theorem no_header_on_connect_failure (env : Env) (q d : String) (e : PyErr)
    (hc : env.connectResult connConfig = Except.error e) :
    (execute_query env q d).1 = [Event.printError e.msg] := by
  simp [execute_query, tryBody, hc]

/-- Witness for C10 at a concrete unreachable-target environment. -/
theorem no_header_on_connect_failure_witness :
    (envConnFail "server down").connectResult connConfig =
      Except.error ⟨"server down"⟩ ∧
    (execute_query (envConnFail "server down") "q" "d").1 =
      [Event.printError "server down"] :=
  ⟨rfl, no_header_on_connect_failure (envConnFail "server down") "q" "d"
     ⟨"server down"⟩ rfl⟩

/-- Claim C4: every invocation falls into exactly one of three
user-visible outcomes — success with at least one row (a table and a
row-count line, no error line, no notice, and a non-empty DataFrame is
returned), failure (exactly one error line, no table, no notice, and
`None` is returned), or an empty result (the no-rows notice, no table, no
error line, and an empty DataFrame is returned).  The three cases are
mutually exclusive and cover every execution. -/
theorem three_outcomes_exclusive_exhaustive (env : Env) (q d : String) :
    (hasTable (execute_query env q d).1 = true ∧
     hasRowCount (execute_query env q d).1 = true ∧
     countErrorLines (execute_query env q d).1 = 0 ∧
     hasNoResults (execute_query env q d).1 = false ∧
     ∃ df, (execute_query env q d).2 = some df ∧ 0 < df.rows.length) ∨
    (hasTable (execute_query env q d).1 = false ∧
     countErrorLines (execute_query env q d).1 = 1 ∧
     hasNoResults (execute_query env q d).1 = false ∧
     (execute_query env q d).2 = none) ∨
    (hasTable (execute_query env q d).1 = false ∧
     countErrorLines (execute_query env q d).1 = 0 ∧
     hasNoResults (execute_query env q d).1 = true ∧
     ∃ df, (execute_query env q d).2 = some df ∧ df.rows.length = 0) := by
  cases hc : env.connectResult connConfig with
  | error e =>
      right; left
      simp [execute_query, tryBody, hc, hasTable, hasNoResults,
        countErrorLines, isErrorLine]
  | ok u =>
      cases hq : env.readSql q with
      | error e =>
          right; left
          simp [execute_query, tryBody, hc, hq, hasTable, hasNoResults,
            countErrorLines, isErrorLine, List.filter]
      | ok df =>
          by_cases hr : 0 < df.rows.length
          · left
            refine ⟨?_, ?_, ?_, ?_, df, ?_, hr⟩ <;>
              simp [execute_query, tryBody, render, hc, hq, hr, hasTable,
                hasRowCount, hasNoResults, countErrorLines, isErrorLine,
                List.filter]
          · right; right
            refine ⟨?_, ?_, ?_, df, ?_, by omega⟩ <;>
              simp [execute_query, tryBody, render, hc, hq, hr, hasTable,
                hasNoResults, countErrorLines, isErrorLine, List.filter]

/-- Claim C5: when the successful result has more than 20 rows, `render`
with the source's cap of 20 prints a table showing exactly 20 rows and a
trailing row-count line reporting the true `row_count`, which exceeds
what was displayed. -/
theorem render_caps_at_20_reports_true_count (df : DataFrame)
    (h : 20 < df.rows.length) :
    render df 20 = [Event.printTable (df.rows.take 20) df.columns,
                    Event.printRowCount df.rows.length] ∧
    (df.rows.take 20).length = 20 := by
  constructor
  · simp only [render, if_pos (by omega : 0 < df.rows.length)]
  · simp [List.length_take]
    omega

/-- Witness for C5 at a concrete 21-row DataFrame. -/
theorem render_caps_witness :
    20 < df21.rows.length ∧
    (render df21 20 = [Event.printTable (df21.rows.take 20) df21.columns,
                       Event.printRowCount df21.rows.length] ∧
     (df21.rows.take 20).length = 20) :=
  ⟨by decide, render_caps_at_20_reports_true_count df21 (by decide)⟩

/-- Claim C6: a query that executes successfully and matches zero rows
yields a returned DataFrame (success, distinct from the `None` of
failure) with zero rows, and the display is the no-rows notice rather
than a table. -/
theorem empty_result_success_notice (env : Env) (q d : String)
    (df : DataFrame) (hc : env.connectResult connConfig = Except.ok ())
    (hq : env.readSql q = Except.ok df) (hr : df.rows = []) :
    (execute_query env q d).2 = some df ∧
    df.rows.length = 0 ∧
    hasNoResults (execute_query env q d).1 = true ∧
    hasTable (execute_query env q d).1 = false := by
  refine ⟨?_, by simp [hr], ?_, ?_⟩ <;>
    simp [execute_query, tryBody, render, hc, hq, hr, hasNoResults, hasTable]

/-- Witness for C6 at a concrete zero-row environment. -/
theorem empty_result_success_notice_witness :
    ((envOk emptyDF).connectResult connConfig = Except.ok () ∧
     (envOk emptyDF).readSql "q" = Except.ok emptyDF ∧
     emptyDF.rows = []) ∧
    ((execute_query (envOk emptyDF) "q" "d").2 = some emptyDF ∧
     emptyDF.rows.length = 0 ∧
     hasNoResults (execute_query (envOk emptyDF) "q" "d").1 = true ∧
     hasTable (execute_query (envOk emptyDF) "q" "d").1 = false) :=
  ⟨⟨rfl, rfl, rfl⟩,
   empty_result_success_notice (envOk emptyDF) "q" "d" emptyDF rfl rfl rfl⟩

/-- Claim C7, counterexample: two invocations that differ in everything
the caller can supply (the SQL text and the label — the function's only
parameters besides the environment) both open their connection with the
same fixed configuration, the literal `host="localhost", port=5433,
database="ecommerce_db", user="admin", password="root"` of lines 17-23.
The five connection parameters are not caller-supplied inputs; they are
defaults baked into the function. -/
theorem connect_uses_hardcoded_config :
    (execute_query (envOk emptyDF) "SELECT 1" "A").1.head? =
      some (Event.connOpen connConfig) ∧
    (execute_query (envOk df21) "SELECT 2" "B").1.head? =
      some (Event.connOpen connConfig) ∧
    connConfig = ⟨"localhost", 5433, "ecommerce_db", "admin", "root"⟩ :=
  ⟨rfl, rfl, rfl⟩

/-- Claim C7 as amended: `execute_query` takes only the SQL text and a
display label from the caller; every connection any invocation opens uses
the hard-coded target (localhost, 5433, ecommerce_db, admin, root) —
none of the five connection parameters is a caller input. -/
theorem connections_always_use_fixed_config (env : Env) (q d : String) :
    opensOnly connConfig (execute_query env q d).1 = true := by
  cases hc : env.connectResult connConfig with
  | error e => simp [execute_query, tryBody, hc, opensOnly]
  | ok u =>
      cases hq : env.readSql q with
      | error e => simp [execute_query, tryBody, hc, hq, opensOnly]
      | ok df =>
          by_cases hr : 0 < df.rows.length <;>
            simp [execute_query, tryBody, render, hc, hq, hr, opensOnly]

/-- A database environment with explicit state `σ`: `connectResult` may
depend on the current database state, and `readSql` returns the raised
exception or the fetched DataFrame together with the state after
executing the statement (an arbitrary SQL text may mutate the store). -/
structure StatefulEnv (σ : Type) where
  connectResult : σ → ConnConfig → Except PyErr Unit
  readSql : σ → String → Except PyErr DataFrame × σ

/-- The one-invocation view of a stateful environment frozen at state
`s`. -/
def StatefulEnv.snapshot {σ : Type} (e : StatefulEnv σ) (s : σ) : Env :=
  ⟨e.connectResult s, fun q => (e.readSql s q).1⟩

/-- The database state after one invocation of `execute_query` from state
`s`: unchanged when the connection attempt fails (the statement never
ran), otherwise whatever state `readSql` left behind. -/
def StatefulEnv.stateAfter {σ : Type} (e : StatefulEnv σ) (s : σ)
    (q : String) : σ :=
  match e.connectResult s connConfig with
  | Except.error _ => s
  | Except.ok _ => (e.readSql s q).2

/-- Two back-to-back invocations of `execute_query` with identical inputs
against the stateful environment, the second starting from the state the
first left behind. -/
def runTwice {σ : Type} (e : StatefulEnv σ) (s : σ) (q d : String) :
    (List Event × Option DataFrame) × (List Event × Option DataFrame) :=
  (execute_query (e.snapshot s) q d,
   execute_query (e.snapshot (e.stateAfter s q)) q d)

/-- Claim C8: idempotence. If executing any statement leaves the database
state unchanged (a read-only query with no concurrent writers), then
invoking `execute_query` twice with identical inputs yields identical
results — in particular the same returned DataFrame, hence identical
`row_count` and identical row contents. -/
theorem execute_query_idempotent {σ : Type} (e : StatefulEnv σ) (s : σ)
    (q d : String) (hro : ∀ s q, (e.readSql s q).2 = s) :
    (runTwice e s q d).1 = (runTwice e s q d).2 := by
  have hst : e.stateAfter s q = s := by
    unfold StatefulEnv.stateAfter
    cases e.connectResult s connConfig <;> simp [hro]
  rw [runTwice, hst]

/-- A concrete read-only stateful environment: the state is a `Nat` that
no query changes, every query returning the 21-row DataFrame. -/
def statefulReadOnly : StatefulEnv Nat :=
  ⟨fun _ _ => Except.ok (), fun s _ => (Except.ok df21, s)⟩

/-- Witness for C8 at the concrete read-only environment. -/
theorem execute_query_idempotent_witness :
    (∀ (s : Nat) (q : String), (statefulReadOnly.readSql s q).2 = s) ∧
    (runTwice statefulReadOnly 0 "SELECT 1" "L").1 =
      (runTwice statefulReadOnly 0 "SELECT 1" "L").2 :=
  ⟨fun _ _ => rfl,
   execute_query_idempotent statefulReadOnly 0 "SELECT 1" "L"
     (fun _ _ => rfl)⟩

/-- Claim C9: the 20-row cap affects display only. For a successful
invocation fetching a DataFrame with more than 20 rows, the trace shows a
table of exactly the first 20 rows, but the returned value is the full
DataFrame with all of its rows, and the row-count line reports the full
count. -/
theorem cap_display_only (env : Env) (q d : String) (df : DataFrame)
    (hc : env.connectResult connConfig = Except.ok ())
    (hq : env.readSql q = Except.ok df) (hn : 20 < df.rows.length) :
    (execute_query env q d).2 = some df ∧
    (execute_query env q d).1 =
      [Event.connOpen connConfig, Event.printHeader d,
       Event.printTable (df.rows.take 20) df.columns,
       Event.printRowCount df.rows.length, Event.connClose] ∧
    (df.rows.take 20).length = 20 := by
  refine ⟨?_, ?_, by simp [List.length_take]; omega⟩ <;>
    simp [execute_query, tryBody, render, hc, hq,
      (by omega : 0 < df.rows.length)]

/-- Witness for C9 at the concrete 21-row environment: all 21 rows come
back even though only 20 are shown. -/
theorem cap_display_only_witness :
    ((envOk df21).connectResult connConfig = Except.ok () ∧
     (envOk df21).readSql "q" = Except.ok df21 ∧ 20 < df21.rows.length) ∧
    ((execute_query (envOk df21) "q" "d").2 = some df21 ∧
     (execute_query (envOk df21) "q" "d").1 =
       [Event.connOpen connConfig, Event.printHeader "d",
        Event.printTable (df21.rows.take 20) df21.columns,
        Event.printRowCount df21.rows.length, Event.connClose] ∧
     (df21.rows.take 20).length = 20) :=
  ⟨⟨rfl, rfl, by decide⟩,
   cap_display_only (envOk df21) "q" "d" df21 rfl rfl (by decide)⟩

end RunQueries
